import Mathlib

/-!
Verification of the race-strategy core of the `apex` repository.

The Python sources under `src/rsw` are shallowly embedded: Python `int`
becomes `ℤ` (or `ℕ` for counters), `float` becomes `ℚ` (exact arithmetic),
`datetime` becomes an abstract `ℕ` tick (ISO strings preserve order),
`None`-able values become `Option`, and the impure `datetime.now(...)`
calls are threaded as an explicit `now` argument.  Python truthiness
(`if x:` on numbers, strings, lists and `None`) is modelled explicitly.
-/

namespace Apex

/-- Python truthiness of an optional float: `None` and `0.0` are falsy. -/
def truthyOpt (o : Option ℚ) : Bool :=
  match o with
  | none => false
  | some v => decide (v ≠ 0)

/-- Python truthiness of an optional int: `None` and `0` are falsy. -/
def truthyOptInt (o : Option ℤ) : Bool :=
  match o with
  | none => false
  | some v => decide (v ≠ 0)

/-- Python `a or b` on optional floats: returns `a` when truthy, else `b`. -/
def pyOr (a b : Option ℚ) : Option ℚ :=
  if truthyOpt a then a else b

/-- Python `int(q)` on a float: truncation toward zero. -/
def pyTrunc (q : ℚ) : ℤ :=
  if 0 ≤ q then ⌊q⌋ else ⌈q⌉

/-- Character-list helper: does `s` start with `pat`? -/
def startsWithChars : List Char → List Char → Bool
  | [], _ => true
  | _ :: _, [] => false
  | a :: as, b :: bs => a == b && startsWithChars as bs

/-- Character-list helper: does `pat` occur inside `s`? -/
def containsChars (pat : List Char) : List Char → Bool
  | [] => startsWithChars pat []
  | b :: bs => startsWithChars pat (b :: bs) || containsChars pat bs

/-- Python `pat in s` on strings: substring containment. -/
def pyInStr (pat s : String) : Bool :=
  containsChars pat.toList s.toList

/-- ASCII uppercase of one character (the race-control keyword matching only
involves ASCII text). -/
def asciiUpperChar (c : Char) : Char :=
  if 97 ≤ c.toNat ∧ c.toNat ≤ 122 then Char.ofNat (c.toNat - 32) else c

/-- Python `s.upper()` on the ASCII fragment the source matches against. -/
def pyUpper (s : String) : String :=
  String.mk (s.data.map asciiUpperChar)

/-- Lookup in a Python dict modelled as an insertion-ordered association list. -/
def dictGet {κ α : Type} [DecidableEq κ] : List (κ × α) → κ → Option α
  | [], _ => none
  | (k', v') :: rest, k => if k' = k then some v' else dictGet rest k

/-- Python `d[k] = v`: replace the value of an existing key in place,
otherwise append the new key at the end (insertion order). -/
def dictSet {κ α : Type} [DecidableEq κ] : List (κ × α) → κ → α → List (κ × α)
  | [], k, v => [(k, v)]
  | (k', v') :: rest, k, v =>
    if k' = k then (k, v) :: rest else (k', v') :: dictSet rest k v

/-! ## Data model (`src/rsw/state/schemas.py`, `src/rsw/ingest/base.py`)

Only the fields that the state reducers read or write are embedded;
the remaining `DriverState` fields (telemetry, decision outputs, …) are
never touched by `reducers.py` and are carried unchanged by
`model_copy(update=...)`, so omitting them does not change any reducer's
observable behaviour on the embedded fields. -/

/-- Embedded `DriverState` with the defaults of `schemas.py`. -/
structure DriverState where
  driver_number : ℤ
  name_acronym : String := ""
  full_name : String := ""
  team_name : String := ""
  team_colour : String := "FFFFFF"
  position : ℤ := 0
  gap_to_leader : Option ℚ := none
  gap_to_ahead : Option ℚ := none
  current_lap : ℤ := 0
  last_lap_time : Option ℚ := none
  best_lap_time : Option ℚ := none
  sector_1 : Option ℚ := none
  sector_2 : Option ℚ := none
  sector_3 : Option ℚ := none
  stint_number : ℤ := 1
  compound : Option String := none
  lap_in_stint : ℤ := 0
  stint_start_lap : ℤ := 1
  tyre_age : ℤ := 0
  is_pit_out_lap : Bool := false
  last_update : Option ℕ := none
deriving DecidableEq

/-- One entry of `RaceState.recent_pits` (a dict in the source). -/
structure PitRecord where
  driver_number : ℤ
  lap_number : ℤ
  pit_duration : Option ℚ
  timestamp : ℕ
deriving DecidableEq

/-- One entry of `RaceState.recent_messages` (a dict in the source). -/
structure MsgRecord where
  category : String
  flag : Option String
  message : String
  lap_number : Option ℤ
  timestamp : ℕ
deriving DecidableEq

/-- Embedded `RaceState` with the defaults of `schemas.py`. -/
structure RaceState where
  session_key : ℤ
  current_lap : ℤ := 0
  total_laps : ℤ := 0
  timestamp : ℕ := 0
  drivers : List (ℤ × DriverState) := []
  flags : List String := []
  safety_car : Bool := false
  virtual_safety_car : Bool := false
  red_flag : Bool := false
  recent_pits : List PitRecord := []
  recent_messages : List MsgRecord := []
deriving DecidableEq

/-- Embedded `DriverInfo` record. -/
structure DriverInfo where
  driver_number : ℤ
  name_acronym : String
  full_name : String
  team_name : String
  team_colour : String
  country_code : String := ""
deriving DecidableEq

/-- Embedded `LapData` record. -/
structure LapData where
  driver_number : ℤ
  lap_number : ℤ
  lap_duration : Option ℚ := none
  sector_1 : Option ℚ := none
  sector_2 : Option ℚ := none
  sector_3 : Option ℚ := none
  is_pit_out_lap : Bool := false
  timestamp : Option ℕ := none
deriving DecidableEq

/-- Embedded `PositionData` record. -/
structure PositionData where
  driver_number : ℤ
  position : ℤ
  timestamp : ℕ
deriving DecidableEq

/-- Embedded `IntervalData` record. -/
structure IntervalData where
  driver_number : ℤ
  gap_to_leader : Option ℚ := none
  interval : Option ℚ := none
  timestamp : ℕ
deriving DecidableEq

/-- Embedded `StintData` record. -/
structure StintData where
  driver_number : ℤ
  stint_number : ℤ
  compound : String
  lap_start : ℤ
  tyre_age_at_start : ℤ := 0
deriving DecidableEq

/-- Embedded `PitData` record. -/
structure PitData where
  driver_number : ℤ
  lap_number : ℤ
  pit_duration : ℚ
  timestamp : ℕ
deriving DecidableEq

/-- Embedded `RaceControlMessage` record. -/
structure RaceControlMessage where
  category : String
  flag : Option String := none
  message : String
  lap_number : Option ℤ := none
  timestamp : ℕ
deriving DecidableEq

/-- Embedded `UpdateBatch`.  The `Optional[list[...]]` payload fields are
collapsed to plain lists: in `apply_update_batch` every payload is guarded
by Python truthiness (`if batch.laps:`), under which `None` and `[]` are
indistinguishable. -/
structure UpdateBatch where
  session_key : ℤ
  timestamp : ℕ
  current_lap : Option ℤ := none
  drivers : List DriverInfo := []
  laps : List LapData := []
  positions : List PositionData := []
  intervals : List IntervalData := []
  stints : List StintData := []
  pits : List PitData := []
  race_control : List RaceControlMessage := []
deriving DecidableEq

/-! ## State reducers (`src/rsw/state/reducers.py`) -/

/-- Loop body of `apply_drivers`. -/
def applyDriversStep (now : ℕ) (d : List (ℤ × DriverState)) (info : DriverInfo) :
    List (ℤ × DriverState) :=
  match dictGet d info.driver_number with
  | some existing =>
    dictSet d info.driver_number
      { existing with
        name_acronym := info.name_acronym
        full_name := info.full_name
        team_name := info.team_name
        team_colour := info.team_colour
        last_update := some now }
  | none =>
    dictSet d info.driver_number
      { driver_number := info.driver_number
        name_acronym := info.name_acronym
        full_name := info.full_name
        team_name := info.team_name
        team_colour := info.team_colour
        last_update := some now }

/-- Embedded `apply_drivers`. -/
def apply_drivers (now : ℕ) (state : RaceState) (drivers : List DriverInfo) : RaceState :=
  { state with drivers := drivers.foldl (applyDriversStep now) state.drivers }

/-- Loop body of `apply_laps`; the accumulator carries `(new_drivers, max_lap)`. -/
def applyLapsStep (now : ℕ) (acc : List (ℤ × DriverState) × ℤ) (lap : LapData) :
    List (ℤ × DriverState) × ℤ :=
  let driver := (dictGet acc.1 lap.driver_number).getD { driver_number := lap.driver_number }
  if lap.lap_number ≥ driver.current_lap then
    (dictSet acc.1 lap.driver_number
      { driver with
        current_lap := lap.lap_number
        last_lap_time := lap.lap_duration
        best_lap_time :=
          if truthyOpt driver.best_lap_time ∧ truthyOpt lap.lap_duration then
            some (min (driver.best_lap_time.getD 0) (lap.lap_duration.getD 0))
          else pyOr lap.lap_duration driver.best_lap_time
        sector_1 := lap.sector_1
        sector_2 := lap.sector_2
        sector_3 := lap.sector_3
        is_pit_out_lap := lap.is_pit_out_lap
        lap_in_stint := lap.lap_number - driver.stint_start_lap + 1
        tyre_age := driver.tyre_age + (if lap.lap_number > driver.current_lap then 1 else 0)
        last_update := some (lap.timestamp.getD now) },
     max acc.2 lap.lap_number)
  else acc

/-- Embedded `apply_laps`. -/
def apply_laps (now : ℕ) (state : RaceState) (laps : List LapData) : RaceState :=
  let acc := laps.foldl (applyLapsStep now) (state.drivers, state.current_lap)
  { state with drivers := acc.1, current_lap := acc.2, timestamp := now }

/-- Loop body of `apply_positions`. -/
def applyPositionsStep (d : List (ℤ × DriverState)) (pos : PositionData) :
    List (ℤ × DriverState) :=
  match dictGet d pos.driver_number with
  | some driver =>
    dictSet d pos.driver_number
      { driver with position := pos.position, last_update := some pos.timestamp }
  | none =>
    dictSet d pos.driver_number
      { driver_number := pos.driver_number
        position := pos.position
        last_update := some pos.timestamp }

/-- Embedded `apply_positions`. -/
def apply_positions (state : RaceState) (positions : List PositionData) : RaceState :=
  { state with drivers := positions.foldl applyPositionsStep state.drivers }

/-- Loop body of `apply_intervals`. -/
def applyIntervalsStep (d : List (ℤ × DriverState)) (interval : IntervalData) :
    List (ℤ × DriverState) :=
  match dictGet d interval.driver_number with
  | some driver =>
    dictSet d interval.driver_number
      { driver with
        gap_to_leader := interval.gap_to_leader
        gap_to_ahead := interval.interval
        last_update := some interval.timestamp }
  | none => d

/-- Embedded `apply_intervals`. -/
def apply_intervals (state : RaceState) (intervals : List IntervalData) : RaceState :=
  { state with drivers := intervals.foldl applyIntervalsStep state.drivers }

/-- First loop of `apply_stints`: keep, per driver, the record with the
highest `stint_number` (first occurrence wins ties). -/
def collectStints (acc : List (ℤ × StintData)) (s : StintData) : List (ℤ × StintData) :=
  match dictGet acc s.driver_number with
  | some existing =>
    if s.stint_number > existing.stint_number then dictSet acc s.driver_number s else acc
  | none => dictSet acc s.driver_number s

/-- Second loop of `apply_stints`. -/
def applyStintsStep (d : List (ℤ × DriverState)) (p : ℤ × StintData) :
    List (ℤ × DriverState) :=
  match dictGet d p.1 with
  | some driver =>
    dictSet d p.1
      { driver with
        stint_number := p.2.stint_number
        compound := some p.2.compound
        stint_start_lap := p.2.lap_start
        tyre_age := p.2.tyre_age_at_start + max 0 (driver.current_lap - p.2.lap_start)
        lap_in_stint := max 1 (driver.current_lap - p.2.lap_start + 1) }
  | none => d

/-- Embedded `apply_stints`. -/
def apply_stints (state : RaceState) (stints : List StintData) : RaceState :=
  { state with
    drivers := (stints.foldl collectStints []).foldl applyStintsStep state.drivers }

/-- Loop body of `apply_pits`: append-only, de-duplicated by
`(driver_number, lap_number)`. -/
def applyPitsStep (recent : List PitRecord) (pit : PitData) : List PitRecord :=
  if recent.any fun p =>
      p.driver_number == pit.driver_number && p.lap_number == pit.lap_number then
    recent
  else
    recent ++ [{ driver_number := pit.driver_number
                 lap_number := pit.lap_number
                 pit_duration := some pit.pit_duration
                 timestamp := pit.timestamp }]

/-- Python `sorted(l, key=ts, reverse=True)`: a stable descending sort by
timestamp (insertion sort with a non-strict relation is stable, matching
Python's stable sort semantics). -/
def sortByTimestampDesc (l : List PitRecord) : List PitRecord :=
  l.insertionSort fun a b => b.timestamp ≤ a.timestamp

/-- Embedded `apply_pits`. -/
def apply_pits (state : RaceState) (pits : List PitData) : RaceState :=
  { state with
    recent_pits := (sortByTimestampDesc (pits.foldl applyPitsStep state.recent_pits)).take 10 }

/-- Mutable locals of the `apply_race_control` loop. -/
structure RCAcc where
  flags : List String
  safety_car : Bool
  virtual_safety_car : Bool
  red_flag : Bool
  recent_messages : List MsgRecord
deriving DecidableEq

def sGREEN : String := "GREEN"
def sCLEAR : String := "CLEAR"
def sRED : String := "RED"
def sYELLOW : String := "YELLOW"
def sDOUBLEYELLOW : String := "DOUBLE YELLOW"
def sSAFETYCAR : String := "SAFETY CAR"
def sVSC : String := "VSC"
def sVIRTUALSAFETYCAR : String := "VIRTUAL SAFETY CAR"
def sDEPLOYED : String := "DEPLOYED"
def sENDING : String := "ENDING"
def sIN : String := "IN"
def sSafetyCarCat : String := "SafetyCar"

/-- Flag clause of the `apply_race_control` loop body (guarded by the
truthiness of `msg.flag`: `None` and the empty string are falsy). -/
def rcFlagClause (acc : RCAcc) (msg : RaceControlMessage) : RCAcc :=
  match msg.flag with
  | none => acc
  | some f =>
    if f = "" then acc
    else if f = sGREEN ∨ f = sCLEAR then
      { acc with
        flags := [sGREEN], safety_car := false, virtual_safety_car := false, red_flag := false }
    else if f = sRED then
      { acc with flags := [sRED], red_flag := true }
    else if f = sYELLOW ∨ f = sDOUBLEYELLOW then
      if sYELLOW ∈ acc.flags then acc else { acc with flags := acc.flags ++ [sYELLOW] }
    else acc

/-- Safety-car clause of the `apply_race_control` loop body. -/
def rcSafetyCarClause (acc : RCAcc) (msg : RaceControlMessage) : RCAcc :=
  if msg.category = sSafetyCarCat then
    if pyInStr sDEPLOYED (pyUpper msg.message) then
      { acc with
        safety_car := true
        flags := if sSAFETYCAR ∈ acc.flags then acc.flags else acc.flags ++ [sSAFETYCAR] }
    else if pyInStr sENDING (pyUpper msg.message) ∨ pyInStr sIN (pyUpper msg.message) then
      { acc with safety_car := false, flags := acc.flags.filter fun f => f ≠ sSAFETYCAR }
    else acc
  else acc

/-- VSC clause of the `apply_race_control` loop body. -/
def rcVSCClause (acc : RCAcc) (msg : RaceControlMessage) : RCAcc :=
  if pyInStr sVSC (pyUpper msg.message) ∨ pyInStr sVIRTUALSAFETYCAR (pyUpper msg.message) then
    if pyInStr sDEPLOYED (pyUpper msg.message) then
      { acc with
        virtual_safety_car := true
        flags := if sVSC ∈ acc.flags then acc.flags else acc.flags ++ [sVSC] }
    else if pyInStr sENDING (pyUpper msg.message) then
      { acc with virtual_safety_car := false, flags := acc.flags.filter fun f => f ≠ sVSC }
    else acc
  else acc

/-- Loop body of `apply_race_control`: the three clauses in source order,
then the message is appended to the recent list. -/
def applyRaceControlStep (acc : RCAcc) (msg : RaceControlMessage) : RCAcc :=
  let acc1 := rcFlagClause acc msg
  let acc2 := rcSafetyCarClause acc1 msg
  let acc3 := rcVSCClause acc2 msg
  { acc3 with
    recent_messages := acc3.recent_messages ++
      [{ category := msg.category
         flag := msg.flag
         message := msg.message
         lap_number := msg.lap_number
         timestamp := msg.timestamp }] }

/-- Python `sorted(msgs, key=ts, reverse=True)` for message records. -/
def sortMsgsByTimestampDesc (l : List MsgRecord) : List MsgRecord :=
  l.insertionSort fun a b => b.timestamp ≤ a.timestamp

/-- Embedded `apply_race_control`. -/
def apply_race_control (state : RaceState) (messages : List RaceControlMessage) : RaceState :=
  let acc := messages.foldl applyRaceControlStep
    { flags := state.flags
      safety_car := state.safety_car
      virtual_safety_car := state.virtual_safety_car
      red_flag := state.red_flag
      recent_messages := state.recent_messages }
  { state with
    flags := acc.flags
    safety_car := acc.safety_car
    virtual_safety_car := acc.virtual_safety_car
    red_flag := acc.red_flag
    recent_messages := (sortMsgsByTimestampDesc acc.recent_messages).take 20 }

/-- Embedded `apply_update_batch`: non-empty payloads applied in the fixed
source order, then `current_lap` advanced when `batch.current_lap` is truthy. -/
def apply_update_batch (now : ℕ) (state : RaceState) (batch : UpdateBatch) : RaceState :=
  let s1 := if batch.drivers.isEmpty then state else apply_drivers now state batch.drivers
  let s2 := if batch.positions.isEmpty then s1 else apply_positions s1 batch.positions
  let s3 := if batch.intervals.isEmpty then s2 else apply_intervals s2 batch.intervals
  let s4 := if batch.stints.isEmpty then s3 else apply_stints s3 batch.stints
  let s5 := if batch.laps.isEmpty then s4 else apply_laps now s4 batch.laps
  let s6 := if batch.pits.isEmpty then s5 else apply_pits s5 batch.pits
  let s7 := if batch.race_control.isEmpty then s6 else apply_race_control s6 batch.race_control
  if truthyOptInt batch.current_lap then
    { s7 with
      current_lap := max s7.current_lap (batch.current_lap.getD 0)
      timestamp := batch.timestamp }
  else s7

/-! ## Dictionary lemmas -/

theorem dictGet_dictSet_self {κ α : Type} [DecidableEq κ] (d : List (κ × α)) (k : κ) (v : α) :
    dictGet (dictSet d k v) k = some v := by
  induction d with
  | nil => simp [dictGet, dictSet]
  | cons p rest ih =>
    obtain ⟨k', v'⟩ := p
    by_cases h : k' = k
    · simp [dictSet, dictGet, h]
    · simp [dictSet, dictGet, h, ih]

theorem dictGet_dictSet_ne {κ α : Type} [DecidableEq κ] (d : List (κ × α)) (k k' : κ) (v : α)
    (h : k ≠ k') : dictGet (dictSet d k v) k' = dictGet d k' := by
  induction d with
  | nil => simp [dictGet, dictSet, h]
  | cons p rest ih =>
    obtain ⟨k₀, v₀⟩ := p
    by_cases h₀ : k₀ = k
    · subst h₀
      simp [dictSet, dictGet, h]
    · by_cases h₁ : k₀ = k'
      · simp [dictSet, dictGet, h₀, h₁, Ne.symm h]
      · simp [dictSet, dictGet, h₀, h₁, ih]

theorem isSome_dictGet_dictSet_of {κ α : Type} [DecidableEq κ] (d : List (κ × α)) (k k' : κ)
    (v : α) (h : (dictGet d k').isSome = true) :
    (dictGet (dictSet d k v) k').isSome = true := by
  by_cases hk : k = k'
  · subst hk
    simp [dictGet_dictSet_self]
  · rw [dictGet_dictSet_ne d k k' v hk]
    exact h

theorem isSome_dictGet_dictSet_eq {κ α : Type} [DecidableEq κ] (d : List (κ × α)) (j : κ)
    (v : α) (hj : (dictGet d j).isSome = true) (k : κ) :
    (dictGet (dictSet d j v) k).isSome = (dictGet d k).isSome := by
  by_cases hk : j = k
  · subst hk
    simp [dictGet_dictSet_self, hj]
  · rw [dictGet_dictSet_ne d j k v hk]

/-! ## Claim C1: batches with only stale laps -/

/-- The `current_lap` of the driver record that `apply_laps` consults for a
lap record: the stored driver state, or a fresh default (with
`current_lap = 0`) when the driver number is unknown. -/
def driverCurrentLap (d : List (ℤ × DriverState)) (k : ℤ) : ℤ :=
  ((dictGet d k).getD { driver_number := k }).current_lap

theorem foldl_applyLapsStep_stale (now : ℕ) (d0 : List (ℤ × DriverState)) (m0 : ℤ)
    (laps : List LapData)
    (h : ∀ l ∈ laps, l.lap_number < driverCurrentLap d0 l.driver_number) :
    laps.foldl (applyLapsStep now) (d0, m0) = (d0, m0) := by
  induction laps with
  | nil => rfl
  | cons l rest ih =>
    have hl := h l (List.mem_cons_self l rest)
    have hstep : applyLapsStep now (d0, m0) l = (d0, m0) := by
      unfold applyLapsStep
      have : ¬ l.lap_number ≥
          ((dictGet d0 l.driver_number).getD { driver_number := l.driver_number }).current_lap := by
        exact not_le.mpr hl
      simp only [this, if_false]
    rw [List.foldl_cons, hstep]
    exact ih fun l' hl' => h l' (List.mem_cons_of_mem l hl')

/-- Claim C1 (amended): an `UpdateBatch` carrying only lap records that are
all stale for their drivers leaves every `RaceState` field unchanged except
the top-level `timestamp`, which `apply_laps` unconditionally refreshes to
the application time. -/
theorem stale_lap_batch_only_refreshes_timestamp (now : ℕ) (state : RaceState)
    (batch : UpdateBatch)
    (hdrivers : batch.drivers = []) (hpos : batch.positions = [])
    (hint : batch.intervals = []) (hstints : batch.stints = [])
    (hpits : batch.pits = []) (hrc : batch.race_control = [])
    (hcl : truthyOptInt batch.current_lap = false)
    (hlaps : batch.laps ≠ [])
    (hstale : ∀ l ∈ batch.laps, l.lap_number < driverCurrentLap state.drivers l.driver_number) :
    apply_update_batch now state batch = { state with timestamp := now } := by
  have hlapsE : batch.laps.isEmpty = false := by
    cases hb : batch.laps with
    | nil => exact absurd hb hlaps
    | cons a l => rfl
  unfold apply_update_batch
  rw [hdrivers, hpos, hint, hstints, hpits, hrc]
  simp only [List.isEmpty_nil, if_true, hlapsE, Bool.false_eq_true, if_false, hcl]
  unfold apply_laps
  rw [foldl_applyLapsStep_stale now state.drivers state.current_lap batch.laps hstale]

/-- Concrete state for the C1 counterexample: driver 1 is on lap 5. -/
def c1State : RaceState :=
  { session_key := 1
    timestamp := 0
    drivers := [(1, { driver_number := 1, current_lap := 5 })] }

/-- Concrete batch for the C1 counterexample: a single stale lap record
(lap 2 for a driver already on lap 5) and nothing else. -/
def c1Batch : UpdateBatch :=
  { session_key := 1
    timestamp := 3
    laps := [{ driver_number := 1, lap_number := 2 }] }

/-- Claim C1 (counterexample): applying a batch with no new information does
NOT return a state equal to the input — the timestamp field changes. -/
theorem stale_lap_batch_not_identity : apply_update_batch 7 c1State c1Batch ≠ c1State := by
  decide

/-- Claim C1 (witness): the amended theorem applied at the concrete input. -/
theorem stale_lap_batch_only_refreshes_timestamp_witness :
    apply_update_batch 7 c1State c1Batch = { c1State with timestamp := 7 } :=
  stale_lap_batch_only_refreshes_timestamp 7 c1State c1Batch rfl rfl rfl rfl rfl rfl rfl
    (by decide) (by decide)

/-! ## Claims C3 and C4: position / interval / lap record handling -/

theorem applyIntervalsStep_isSome (d : List (ℤ × DriverState)) (i : IntervalData) (k : ℤ) :
    (dictGet (applyIntervalsStep d i) k).isSome = (dictGet d k).isSome := by
  unfold applyIntervalsStep
  cases hd : dictGet d i.driver_number with
  | none => rfl
  | some dr =>
    exact isSome_dictGet_dictSet_eq d i.driver_number _ (by rw [hd]; rfl) k

theorem foldl_applyIntervalsStep_isSome (il : List IntervalData)
    (d : List (ℤ × DriverState)) (k : ℤ) :
    (dictGet (il.foldl applyIntervalsStep d) k).isSome = (dictGet d k).isSome := by
  induction il generalizing d with
  | nil => rfl
  | cons i rest ih =>
    rw [List.foldl_cons, ih, applyIntervalsStep_isSome]

theorem applyPositionsStep_isSome_self (d : List (ℤ × DriverState)) (q : PositionData) :
    (dictGet (applyPositionsStep d q) q.driver_number).isSome = true := by
  unfold applyPositionsStep
  cases hd : dictGet d q.driver_number with
  | none => rw [dictGet_dictSet_self]; rfl
  | some dr => rw [dictGet_dictSet_self]; rfl

theorem applyPositionsStep_isSome_mono (d : List (ℤ × DriverState)) (q : PositionData)
    (k : ℤ) (h : (dictGet d k).isSome = true) :
    (dictGet (applyPositionsStep d q) k).isSome = true := by
  unfold applyPositionsStep
  cases hd : dictGet d q.driver_number with
  | none => exact isSome_dictGet_dictSet_of d q.driver_number k _ h
  | some dr => exact isSome_dictGet_dictSet_of d q.driver_number k _ h

theorem foldl_applyPositionsStep_isSome_mono (ps : List PositionData)
    (d : List (ℤ × DriverState)) (k : ℤ) (h : (dictGet d k).isSome = true) :
    (dictGet (ps.foldl applyPositionsStep d) k).isSome = true := by
  induction ps generalizing d with
  | nil => exact h
  | cons q rest ih =>
    exact ih (applyPositionsStep d q) (applyPositionsStep_isSome_mono d q k h)

theorem foldl_applyPositionsStep_isSome_mem (ps : List PositionData)
    (d : List (ℤ × DriverState)) (p : PositionData) (hp : p ∈ ps) :
    (dictGet (ps.foldl applyPositionsStep d) p.driver_number).isSome = true := by
  induction ps generalizing d with
  | nil => cases hp
  | cons q rest ih =>
    rw [List.foldl_cons]
    rcases List.mem_cons.mp hp with h | h
    · subst h
      exact foldl_applyPositionsStep_isSome_mono rest _ _
        (applyPositionsStep_isSome_self d p)
    · exact ih _ h

theorem applyLapsStep_isSome_mono (now : ℕ) (acc : List (ℤ × DriverState) × ℤ)
    (l : LapData) (k : ℤ) (h : (dictGet acc.1 k).isSome = true) :
    (dictGet (applyLapsStep now acc l).1 k).isSome = true := by
  simp only [applyLapsStep]
  split
  · exact isSome_dictGet_dictSet_of acc.1 l.driver_number k _ h
  · exact h

theorem applyLapsStep_isSome_self (now : ℕ) (acc : List (ℤ × DriverState) × ℤ)
    (l : LapData) (hl : 0 ≤ l.lap_number) :
    (dictGet (applyLapsStep now acc l).1 l.driver_number).isSome = true := by
  simp only [applyLapsStep]
  split
  · dsimp only
    rw [dictGet_dictSet_self]
    rfl
  · rename_i hcond
    cases hd : dictGet acc.1 l.driver_number with
    | none =>
      exfalso
      rw [hd] at hcond
      simp only [Option.getD_none] at hcond
      exact hcond hl
    | some dr => rfl

theorem foldl_applyLapsStep_isSome_mono (now : ℕ) (laps : List LapData)
    (acc : List (ℤ × DriverState) × ℤ) (k : ℤ) (h : (dictGet acc.1 k).isSome = true) :
    (dictGet (laps.foldl (applyLapsStep now) acc).1 k).isSome = true := by
  induction laps generalizing acc with
  | nil => exact h
  | cons l rest ih =>
    exact ih (applyLapsStep now acc l) (applyLapsStep_isSome_mono now acc l k h)

theorem foldl_applyLapsStep_isSome_mem (now : ℕ) (laps : List LapData)
    (acc : List (ℤ × DriverState) × ℤ) (l : LapData) (hl : l ∈ laps)
    (hnn : 0 ≤ l.lap_number) :
    (dictGet (laps.foldl (applyLapsStep now) acc).1 l.driver_number).isSome = true := by
  induction laps generalizing acc with
  | nil => cases hl
  | cons q rest ih =>
    rw [List.foldl_cons]
    rcases List.mem_cons.mp hl with h | h
    · subst h
      exact foldl_applyLapsStep_isSome_mono now rest _ _
        (applyLapsStep_isSome_self now acc l hnn)
    · exact ih _ h

theorem applyPositionsStep_last (d : List (ℤ × DriverState)) (p : PositionData) :
    (dictGet (applyPositionsStep d p) p.driver_number).map
      (fun x => (x.position, x.last_update)) = some (p.position, some p.timestamp) := by
  unfold applyPositionsStep
  cases hd : dictGet d p.driver_number with
  | none => rw [dictGet_dictSet_self]; rfl
  | some dr => rw [dictGet_dictSet_self]; rfl

theorem applyIntervalsStep_last (d : List (ℤ × DriverState)) (i : IntervalData)
    (dr : DriverState) (hdr : dictGet d i.driver_number = some dr) :
    (dictGet (applyIntervalsStep d i) i.driver_number).map
      (fun x => (x.gap_to_leader, x.gap_to_ahead, x.last_update)) =
      some (i.gap_to_leader, i.interval, some i.timestamp) := by
  unfold applyIntervalsStep
  rw [hdr, dictGet_dictSet_self]
  rfl

/-- Claim C3 (amended): `apply_positions` and `apply_intervals` apply records
unconditionally in list order — the last record in the list for a driver
determines that driver's fields, with no timestamp comparison (the record's
timestamp is merely stored as `last_update`); for intervals the driver must
already exist. -/
theorem last_record_wins_unconditionally :
    (∀ (state : RaceState) (ps : List PositionData) (p : PositionData),
      (dictGet (apply_positions state (ps ++ [p])).drivers p.driver_number).map
          (fun d => (d.position, d.last_update)) = some (p.position, some p.timestamp)) ∧
    (∀ (state : RaceState) (il : List IntervalData) (i : IntervalData),
      (dictGet state.drivers i.driver_number).isSome = true →
      (dictGet (apply_intervals state (il ++ [i])).drivers i.driver_number).map
          (fun d => (d.gap_to_leader, d.gap_to_ahead, d.last_update)) =
        some (i.gap_to_leader, i.interval, some i.timestamp)) := by
  constructor
  · intro state ps p
    show (dictGet ((ps ++ [p]).foldl applyPositionsStep state.drivers) p.driver_number).map
        (fun d => (d.position, d.last_update)) = some (p.position, some p.timestamp)
    rw [List.foldl_append, List.foldl_cons, List.foldl_nil]
    exact applyPositionsStep_last _ p
  · intro state il i hi
    show (dictGet ((il ++ [i]).foldl applyIntervalsStep state.drivers) i.driver_number).map
        (fun d => (d.gap_to_leader, d.gap_to_ahead, d.last_update)) =
      some (i.gap_to_leader, i.interval, some i.timestamp)
    rw [List.foldl_append, List.foldl_cons, List.foldl_nil]
    have hsome : (dictGet (il.foldl applyIntervalsStep state.drivers) i.driver_number).isSome
        = true := by
      rw [foldl_applyIntervalsStep_isSome]
      exact hi
    obtain ⟨dr, hdr⟩ := Option.isSome_iff_exists.mp hsome
    exact applyIntervalsStep_last _ i dr hdr

/-- Concrete state for the C3 counterexample: driver 1 has position 5,
gaps 2/1, and was last updated at time 100. -/
def c3State : RaceState :=
  { session_key := 1
    drivers := [(1, { driver_number := 1, position := 5, gap_to_leader := some 2,
                      gap_to_ahead := some 1, last_update := some 100 })] }

/-- Claim C3 (counterexample): a position record and an interval record whose
timestamp (50) is strictly OLDER than the driver's last applied update (100)
still overwrite the driver's position and gaps — there is no timestamp gate. -/
theorem stale_timestamp_record_still_applied :
    (dictGet (apply_positions c3State
        [{ driver_number := 1, position := 3, timestamp := 50 }]).drivers 1).map
        (fun d => d.position) = some 3 ∧
    (dictGet (apply_intervals c3State
        [{ driver_number := 1, gap_to_leader := some 9, interval := some 8,
           timestamp := 50 }]).drivers 1).map
        (fun d => d.gap_to_leader) = some (some 9) ∧
    (3 : ℤ) ≠ 5 := by
  decide

/-- Claim C3 (witness): the amended theorem applied at concrete inputs. -/
theorem last_record_wins_unconditionally_witness :
    (dictGet (apply_positions c3State
        ([] ++ [{ driver_number := 1, position := 3, timestamp := 50 }])).drivers 1).map
        (fun d => (d.position, d.last_update)) = some ((3 : ℤ), some 50) ∧
    (dictGet (apply_intervals c3State
        ([] ++ [{ driver_number := 1, gap_to_leader := some 9, interval := some 8,
                  timestamp := 50 }])).drivers 1).map
        (fun d => (d.gap_to_leader, d.gap_to_ahead, d.last_update)) =
      some (some 9, some 8, some 50) :=
  ⟨last_record_wins_unconditionally.1 c3State []
      { driver_number := 1, position := 3, timestamp := 50 },
    last_record_wins_unconditionally.2 c3State []
      { driver_number := 1, gap_to_leader := some 9, interval := some 8, timestamp := 50 }
      (by decide)⟩

/-- Claim C4 (amended): interval records referencing an unknown driver are
skipped (the drivers mapping gains no key from `apply_intervals`), but lap
records with a non-negative lap number and position records referencing an
unknown driver CREATE a fresh driver entry; in all cases the remaining
records of the batch are still processed (the reducers are total functions). -/
theorem unknown_driver_record_handling :
    (∀ (state : RaceState) (il : List IntervalData) (k : ℤ),
      (dictGet (apply_intervals state il).drivers k).isSome =
        (dictGet state.drivers k).isSome) ∧
    (∀ (state : RaceState) (ps : List PositionData) (p : PositionData), p ∈ ps →
      (dictGet (apply_positions state ps).drivers p.driver_number).isSome = true) ∧
    (∀ (now : ℕ) (state : RaceState) (laps : List LapData) (l : LapData),
      l ∈ laps → 0 ≤ l.lap_number →
      (dictGet (apply_laps now state laps).drivers l.driver_number).isSome = true) := by
  refine ⟨?_, ?_, ?_⟩
  · intro state il k
    unfold apply_intervals
    exact foldl_applyIntervalsStep_isSome il state.drivers k
  · intro state ps p hp
    unfold apply_positions
    exact foldl_applyPositionsStep_isSome_mem ps state.drivers p hp
  · intro now state laps l hl hnn
    unfold apply_laps
    exact foldl_applyLapsStep_isSome_mem now laps (state.drivers, state.current_lap) l hl hnn

/-- Claim C4 (counterexample): a position record for a driver number (7) not
present in the state creates a new entry in the drivers mapping, and a lap
record for an unknown driver (9) does too — they are not skipped. -/
theorem unknown_driver_records_create_entries :
    (dictGet c3State.drivers 7).isSome = false ∧
    (dictGet (apply_positions c3State
        [{ driver_number := 7, position := 2, timestamp := 50 }]).drivers 7).isSome = true ∧
    (dictGet (apply_laps 0 c3State
        [{ driver_number := 9, lap_number := 4 }]).drivers 9).isSome = true := by
  decide

/-- Claim C4 (witness): the amended theorem applied at concrete inputs. -/
theorem unknown_driver_record_handling_witness :
    (dictGet (apply_intervals c3State
        [{ driver_number := 7, gap_to_leader := some 1, interval := some 1,
           timestamp := 50 }]).drivers 7).isSome = (dictGet c3State.drivers 7).isSome ∧
    (dictGet (apply_positions c3State
        [{ driver_number := 7, position := 2, timestamp := 50 }]).drivers 7).isSome = true ∧
    (dictGet (apply_laps 0 c3State
        [{ driver_number := 9, lap_number := 4 }]).drivers 9).isSome = true :=
  ⟨unknown_driver_record_handling.1 c3State
      [{ driver_number := 7, gap_to_leader := some 1, interval := some 1, timestamp := 50 }] 7,
    unknown_driver_record_handling.2.1 c3State
      [{ driver_number := 7, position := 2, timestamp := 50 }]
      { driver_number := 7, position := 2, timestamp := 50 } (by decide),
    unknown_driver_record_handling.2.2 0 c3State
      [{ driver_number := 9, lap_number := 4 }]
      { driver_number := 9, lap_number := 4 } (by decide) (by decide)⟩

/-! ## Claim C8: red flag excludes green flag -/

/-- The flag-consistency invariant maintained by `apply_race_control`. -/
def RedNoGreen (flags : List String) (red_flag : Bool) : Prop :=
  red_flag = true → sGREEN ∉ flags

theorem rcFlagClause_inv (acc : RCAcc) (msg : RaceControlMessage)
    (h : RedNoGreen acc.flags acc.red_flag) :
    RedNoGreen (rcFlagClause acc msg).flags (rcFlagClause acc msg).red_flag := by
  unfold rcFlagClause
  cases msg.flag with
  | none => exact h
  | some f =>
    dsimp only
    split_ifs with h0 h1 h2 h3 h4
    · exact h
    · intro hred
      simp at hred
    · intro _
      show sGREEN ∉ [sRED]
      decide
    · exact h
    · intro hred hmem
      rcases List.mem_append.mp hmem with hm | hm
      · exact h hred hm
      · revert hm
        decide
    · exact h

theorem rcSafetyCarClause_red_flag (acc : RCAcc) (msg : RaceControlMessage) :
    (rcSafetyCarClause acc msg).red_flag = acc.red_flag := by
  unfold rcSafetyCarClause
  split_ifs <;> rfl

theorem rcSafetyCarClause_green (acc : RCAcc) (msg : RaceControlMessage)
    (h : sGREEN ∉ acc.flags) : sGREEN ∉ (rcSafetyCarClause acc msg).flags := by
  unfold rcSafetyCarClause
  split_ifs with h1 h2 h3 h4
  · exact h
  · intro hmem
    rcases List.mem_append.mp hmem with hm | hm
    · exact h hm
    · revert hm
      decide
  · intro hmem
    exact h (List.mem_of_mem_filter hmem)
  · exact h
  · exact h

theorem rcVSCClause_red_flag (acc : RCAcc) (msg : RaceControlMessage) :
    (rcVSCClause acc msg).red_flag = acc.red_flag := by
  unfold rcVSCClause
  split_ifs <;> rfl

theorem rcVSCClause_green (acc : RCAcc) (msg : RaceControlMessage)
    (h : sGREEN ∉ acc.flags) : sGREEN ∉ (rcVSCClause acc msg).flags := by
  unfold rcVSCClause
  split_ifs with h1 h2 h3 h4
  · exact h
  · intro hmem
    rcases List.mem_append.mp hmem with hm | hm
    · exact h hm
    · revert hm
      decide
  · intro hmem
    exact h (List.mem_of_mem_filter hmem)
  · exact h
  · exact h

theorem applyRaceControlStep_inv (acc : RCAcc) (msg : RaceControlMessage)
    (h : RedNoGreen acc.flags acc.red_flag) :
    RedNoGreen (applyRaceControlStep acc msg).flags (applyRaceControlStep acc msg).red_flag := by
  unfold applyRaceControlStep
  intro hred
  have h1 := rcFlagClause_inv acc msg h
  have hred1 : (rcFlagClause acc msg).red_flag = true := by
    have e2 := rcVSCClause_red_flag (rcSafetyCarClause (rcFlagClause acc msg) msg) msg
    have e1 := rcSafetyCarClause_red_flag (rcFlagClause acc msg) msg
    dsimp only at hred
    rw [e2, e1] at hred
    exact hred
  exact rcVSCClause_green _ msg (rcSafetyCarClause_green _ msg (h1 hred1))

theorem foldl_applyRaceControlStep_inv (messages : List RaceControlMessage) (acc : RCAcc)
    (h : RedNoGreen acc.flags acc.red_flag) :
    RedNoGreen (messages.foldl applyRaceControlStep acc).flags
      (messages.foldl applyRaceControlStep acc).red_flag := by
  induction messages generalizing acc with
  | nil => exact h
  | cons msg rest ih =>
    rw [List.foldl_cons]
    exact ih _ (applyRaceControlStep_inv acc msg h)

/-- Claim C8: for every initial state whose flags are consistent
(`red_flag` implies no `"GREEN"` in the flag list) and every sequence of
race-control messages, the state produced by `apply_race_control` again
satisfies: `red_flag = true` implies `"GREEN"` is not among the flags. -/
theorem red_flag_excludes_green (state : RaceState) (messages : List RaceControlMessage)
    (hinit : state.red_flag = true → sGREEN ∉ state.flags) :
    (apply_race_control state messages).red_flag = true →
      sGREEN ∉ (apply_race_control state messages).flags := by
  unfold apply_race_control
  exact foldl_applyRaceControlStep_inv messages _ hinit

/-- Concrete state for the C8 witness: red-flagged, flags `["RED"]`. -/
def c8State : RaceState :=
  { session_key := 1, red_flag := true, flags := [sRED] }

/-- Concrete message list for the C8 witness: a yellow flag followed by a
safety-car deployment message. -/
def c8Msgs : List RaceControlMessage :=
  [{ category := "Flag", flag := some sYELLOW, message := "YELLOW FLAG", timestamp := 1 },
   { category := sSafetyCarCat, flag := none, message := "SAFETY CAR DEPLOYED", timestamp := 2 }]

/-- Claim C8 (witness): the theorem applied at a concrete red-flagged state,
whose resulting state still carries the red flag. -/
theorem red_flag_excludes_green_witness :
    sGREEN ∉ (apply_race_control c8State c8Msgs).flags :=
  red_flag_excludes_green c8State c8Msgs (by decide) (by decide)

/-! ## Pit window (`src/rsw/strategy/pit_window.py`) -/

/-- Embedded `PitWindow` dataclass. -/
structure PitWindow where
  min_lap : ℤ
  max_lap : ℤ
  ideal_lap : ℤ
  confidence : ℚ
  reason : String
deriving DecidableEq

/-- Embedded `find_optimal_window`.  Python `int(...)` on a positive float is
truncation (`pyTrunc`), `//` is floor division (`Int.fdiv`), and the float
literals `0.01`, `0.3`, `0.7`, `0.4`, `0.5` become exact rationals. -/
def find_optimal_window (current_lap total_laps : ℤ)
    (deg_slope current_pace pit_loss : ℚ) (tyre_age : ℤ) (compound : String)
    (cliff_risk : ℚ) (min_stint_laps : ℤ := 10) : PitWindow :=
  let remaining_laps := total_laps - current_lap
  if remaining_laps ≤ min_stint_laps then
    { min_lap := 0
      max_lap := 0
      ideal_lap := 0
      confidence := 1
      reason := "Too late to pit - stay out to finish" }
  else
    let laps_until_crossover : ℤ := pyTrunc (pit_loss / max deg_slope (1 / 100))
    let min_lap := current_lap + max 1 (min_stint_laps - tyre_age)
    let max_lap := current_lap + min (remaining_laps - min_stint_laps) (laps_until_crossover + 5)
    let idealReason : ℤ × String :=
      if cliff_risk > 7 / 10 then
        (current_lap + max 1 (pyTrunc (((max_lap - min_lap : ℤ) : ℚ) * (3 / 10))),
          "High cliff risk - pit early recommended")
      else if cliff_risk > 4 / 10 then
        (current_lap + Int.fdiv (max_lap - min_lap) 2, "Moderate degradation - flexible window")
      else
        (max_lap, "Low degradation - extend stint if possible")
    let ideal_lap := max min_lap (min max_lap idealReason.1)
    let confidence := 1 - min (1 / 2) (cliff_risk * (1 / 2))
    { min_lap := max 1 min_lap
      max_lap := max min_lap max_lap
      ideal_lap := ideal_lap
      confidence := confidence
      reason := idealReason.2 }

/-- Embedded `should_pit_now`:
returns `(should_pit, confidence, reason)`. -/
def should_pit_now (current_lap : ℤ) (window : PitWindow) (cliff_risk : ℚ)
    (undercut_threat : Bool) (safety_car : Bool := false)
    (gap_to_behind : Option ℚ := none) (pit_loss : ℚ := 22) : Bool × ℚ × String :=
  if safety_car ∧ window.min_lap ≤ current_lap ∧ current_lap ≤ window.max_lap then
    (true, 95 / 100, "Safety car - free pit stop")
  else if cliff_risk > 85 / 100 then
    (true, 9 / 10, "Critical cliff risk - pit immediately")
  else if undercut_threat ∧ current_lap ≥ window.min_lap then
    (true, 8 / 10, "Undercut threat - cover by pitting")
  else if current_lap = window.ideal_lap then
    (true, window.confidence, "Ideal pit lap reached")
  else if current_lap > window.max_lap then
    (true, 7 / 10, "Past optimal window - pit now")
  else
    let reason0 := "Stay out - window opens lap " ++ toString window.min_lap
    let reason := if current_lap ≥ window.min_lap then
        "In window - ideal lap " ++ toString window.ideal_lap
      else reason0
    (false, 1 / 2, reason)

/-! ## Decision engine (`src/rsw/strategy/decision.py`) -/

/-- Embedded `RecommendationType` enumeration. -/
inductive RecommendationType where
  | PIT_NOW
  | STAY_OUT
  | CONSIDER_PIT
  | EXTEND_STINT
deriving DecidableEq

/-- Embedded `PitDecision` dataclass. -/
structure PitDecision where
  lap : ℤ
  compound_to : String
  expected_positions_lost : ℤ
  expected_time_gain : ℚ
  confidence : ℚ
deriving DecidableEq

/-- Embedded `StrategyRecommendation` dataclass. -/
structure StrategyRecommendation where
  driver_number : ℤ
  recommendation : RecommendationType
  confidence : ℚ
  reason : String
  pit_window : Option PitWindow := none
  pit_decision : Option PitDecision := none
  undercut_threat : Bool := false
  overcut_opportunity : Bool := false
  alternatives : Option (List String) := none
deriving DecidableEq

/-- Embedded `evaluate_strategy`.  Python truthiness on the optional gap
floats (`if gap_to_ahead and ...`) is modelled by `truthyOpt`. -/
def evaluate_strategy (driver_number current_lap total_laps current_position : ℤ)
    (deg_slope cliff_risk current_pace : ℚ) (tyre_age : ℤ) (compound : String)
    (pit_loss : ℚ) (gap_to_ahead : Option ℚ := none) (gap_to_behind : Option ℚ := none)
    (ahead_deg : ℚ := 5 / 100) (behind_deg : ℚ := 5 / 100) (safety_car : Bool := false) :
    StrategyRecommendation :=
  let remaining_laps := total_laps - current_lap
  let window := find_optimal_window current_lap total_laps deg_slope current_pace pit_loss
    tyre_age compound cliff_risk
  let r0 := should_pit_now current_lap window cliff_risk false safety_car gap_to_behind pit_loss
  let undercut_threat : Bool :=
    truthyOpt gap_to_ahead && decide (gap_to_ahead.getD 0 < pit_loss + 3)
      && decide (ahead_deg > deg_slope + 2 / 100)
  let overcut_opportunity : Bool :=
    truthyOpt gap_to_behind && decide (gap_to_behind.getD 0 < pit_loss)
      && decide (deg_slope < behind_deg - 2 / 100)
  let r1 := if undercut_threat ∧ ¬ r0.1 then
      should_pit_now current_lap window cliff_risk true safety_car gap_to_behind pit_loss
    else r0
  let decision : RecommendationType × ℚ × String :=
    if safety_car ∧ window.min_lap ≤ current_lap ∧ current_lap ≤ window.max_lap then
      (RecommendationType.PIT_NOW, 95 / 100, "Safety car - free pit stop opportunity")
    else if r1.1 then
      ((if r1.2.1 > 7 / 10 then RecommendationType.PIT_NOW else RecommendationType.CONSIDER_PIT),
        r1.2.1, r1.2.2)
    else if remaining_laps ≤ 10 ∧ tyre_age < 15 then
      (RecommendationType.EXTEND_STINT, 8 / 10,
        "Only " ++ toString remaining_laps ++ " laps left - no pit needed")
    else
      (RecommendationType.STAY_OUT, 1 - cliff_risk * (1 / 2), window.reason)
  let pit_decision : Option PitDecision :=
    if decision.1 = RecommendationType.PIT_NOW ∨ decision.1 = RecommendationType.CONSIDER_PIT then
      let new_compound :=
        if remaining_laps > 30 then (if compound = "SOFT" then "MEDIUM" else "HARD")
        else if remaining_laps > 15 then "MEDIUM"
        else "SOFT"
      some { lap := current_lap
             compound_to := new_compound
             expected_positions_lost :=
               if truthyOpt gap_to_behind ∧ gap_to_behind.getD 0 < pit_loss then 1 else 0
             expected_time_gain := deg_slope * 10
             confidence := decision.2.1 }
    else none
  let alternatives : List String :=
    if decision.1 = RecommendationType.STAY_OUT then
      ["Pit on lap " ++ toString window.ideal_lap ++ " for optimal timing"]
    else if decision.1 = RecommendationType.PIT_NOW then
      ["Extend stint to lap " ++ toString window.max_lap ++ " if needed"]
    else []
  { driver_number := driver_number
    recommendation := decision.1
    confidence := decision.2.1
    reason := decision.2.2
    pit_window := some window
    pit_decision := pit_decision
    undercut_threat := undercut_threat
    overcut_opportunity := overcut_opportunity
    alternatives := some alternatives }

/-! ## Claim C5: window validity -/

/-- Claim C5: under the claim's input constraints, `find_optimal_window`
returns the degenerate all-zero window exactly when
`total_laps - current_lap ≤ min_stint_laps`, and otherwise a window with
`min_lap ≤ ideal_lap ≤ max_lap`. -/
theorem find_optimal_window_valid (current_lap total_laps : ℤ)
    (deg_slope current_pace pit_loss : ℚ) (tyre_age : ℤ) (compound : String)
    (cliff_risk : ℚ) (min_stint_laps : ℤ)
    (hcur : 0 ≤ current_lap) (htot : current_lap ≤ total_laps)
    (hpl : 0 < pit_loss) (hage : 0 ≤ tyre_age)
    (hcr0 : 0 ≤ cliff_risk) (hcr1 : cliff_risk ≤ 1) :
    (total_laps - current_lap ≤ min_stint_laps →
      find_optimal_window current_lap total_laps deg_slope current_pace pit_loss tyre_age
          compound cliff_risk min_stint_laps =
        { min_lap := 0, max_lap := 0, ideal_lap := 0, confidence := 1,
          reason := "Too late to pit - stay out to finish" }) ∧
    (min_stint_laps < total_laps - current_lap →
      (find_optimal_window current_lap total_laps deg_slope current_pace pit_loss tyre_age
          compound cliff_risk min_stint_laps).min_lap ≤
        (find_optimal_window current_lap total_laps deg_slope current_pace pit_loss tyre_age
          compound cliff_risk min_stint_laps).ideal_lap ∧
      (find_optimal_window current_lap total_laps deg_slope current_pace pit_loss tyre_age
          compound cliff_risk min_stint_laps).ideal_lap ≤
        (find_optimal_window current_lap total_laps deg_slope current_pace pit_loss tyre_age
          compound cliff_risk min_stint_laps).max_lap) := by
  constructor
  · intro hdeg
    unfold find_optimal_window
    rw [if_pos hdeg]
  · intro hrem
    unfold find_optimal_window
    rw [if_neg (not_le.mpr hrem)]
    dsimp only
    set A := current_lap + max 1 (min_stint_laps - tyre_age) with hA
    set B := current_lap +
      min (total_laps - current_lap - min_stint_laps)
        (pyTrunc (pit_loss / max deg_slope (1 / 100)) + 5) with hB
    have h1A : (1 : ℤ) ≤ A := by
      have hm : (1 : ℤ) ≤ max 1 (min_stint_laps - tyre_age) := le_max_left _ _
      omega
    constructor
    · rw [max_eq_right h1A]
      exact le_max_left _ _
    · apply max_le (le_max_left A B)
      split_ifs with hcl1 hcl2
      · exact le_trans (min_le_left B _) (le_max_right A B)
      · exact le_trans (min_le_left B _) (le_max_right A B)
      · exact le_trans (min_le_left B _) (le_max_right A B)

/-- Claim C5 (witness): both branches of the theorem at concrete inputs. -/
theorem find_optimal_window_valid_witness :
    (find_optimal_window 20 50 (1 / 10) 90 22 5 "SOFT" (1 / 2) 10).min_lap ≤
      (find_optimal_window 20 50 (1 / 10) 90 22 5 "SOFT" (1 / 2) 10).ideal_lap ∧
    (find_optimal_window 20 50 (1 / 10) 90 22 5 "SOFT" (1 / 2) 10).ideal_lap ≤
      (find_optimal_window 20 50 (1 / 10) 90 22 5 "SOFT" (1 / 2) 10).max_lap :=
  (find_optimal_window_valid 20 50 (1 / 10) 90 22 5 "SOFT" (1 / 2) 10
    (by norm_num) (by norm_num) (by norm_num) (by norm_num) (by norm_num) (by norm_num)).2
    (by norm_num)

/-! ## Claim C6: safety car inside the window -/

/-- Claim C6: with `safety_car = True` and the current lap inside the
computed window, `evaluate_strategy` recommends `PIT_NOW` with confidence
0.95, for every value of `cliff_risk`, `tyre_age` and the gap inputs. -/
theorem safety_car_in_window_pits
    (driver_number current_lap total_laps current_position : ℤ)
    (deg_slope cliff_risk current_pace : ℚ) (tyre_age : ℤ) (compound : String)
    (pit_loss : ℚ) (gap_to_ahead gap_to_behind : Option ℚ) (ahead_deg behind_deg : ℚ)
    (hmin : (find_optimal_window current_lap total_laps deg_slope current_pace pit_loss
        tyre_age compound cliff_risk).min_lap ≤ current_lap)
    (hmax : current_lap ≤ (find_optimal_window current_lap total_laps deg_slope current_pace
        pit_loss tyre_age compound cliff_risk).max_lap) :
    (evaluate_strategy driver_number current_lap total_laps current_position deg_slope
        cliff_risk current_pace tyre_age compound pit_loss gap_to_ahead gap_to_behind
        ahead_deg behind_deg true).recommendation = RecommendationType.PIT_NOW ∧
    (evaluate_strategy driver_number current_lap total_laps current_position deg_slope
        cliff_risk current_pace tyre_age compound pit_loss gap_to_ahead gap_to_behind
        ahead_deg behind_deg true).confidence = 95 / 100 := by
  have hc : True ∧
      (find_optimal_window current_lap total_laps deg_slope current_pace pit_loss
        tyre_age compound cliff_risk).min_lap ≤ current_lap ∧
      current_lap ≤ (find_optimal_window current_lap total_laps deg_slope current_pace
        pit_loss tyre_age compound cliff_risk).max_lap := ⟨trivial, hmin, hmax⟩
  constructor
  · simp only [evaluate_strategy]
    rw [if_pos hc]
  · simp only [evaluate_strategy]
    rw [if_pos hc]

/-- Claim C6 (witness): at lap 0 of a 5-lap session the computed window is
the degenerate `(0, 0, 0)` window, the current lap lies inside it, and the
safety-car branch fires. -/
theorem safety_car_in_window_pits_witness :
    (evaluate_strategy 1 0 5 1 (5 / 100) 0 90 0 "SOFT" 22 none none (5 / 100) (5 / 100)
        true).recommendation = RecommendationType.PIT_NOW ∧
    (evaluate_strategy 1 0 5 1 (5 / 100) 0 90 0 "SOFT" 22 none none (5 / 100) (5 / 100)
        true).confidence = 95 / 100 :=
  safety_car_in_window_pits 1 0 5 1 (5 / 100) 0 90 0 "SOFT" 22 none none (5 / 100) (5 / 100)
    (by norm_num [find_optimal_window]) (by norm_num [find_optimal_window])

/-! ## Claim C2: past the window -/

theorem should_pit_now_overdue (current_lap : ℤ) (w : PitWindow) (cliff_risk : ℚ)
    (safety_car : Bool) (gap_to_behind : Option ℚ) (pit_loss : ℚ)
    (h1 : ¬(safety_car = true ∧ w.min_lap ≤ current_lap ∧ current_lap ≤ w.max_lap))
    (h2 : cliff_risk ≤ 85 / 100) (h4 : current_lap ≠ w.ideal_lap)
    (h5 : w.max_lap < current_lap) :
    should_pit_now current_lap w cliff_risk false safety_car gap_to_behind pit_loss =
      (true, 7 / 10, "Past optimal window - pit now") := by
  unfold should_pit_now
  rw [if_neg h1, if_neg (not_lt.mpr h2), if_neg (by simp), if_neg h4, if_pos h5]

/-- Claim C2 (amended): when no earlier rule of the decision order fires and
`current_lap > window.max_lap`, `should_pit_now` reports a pit with
confidence 0.7, but `evaluate_strategy` maps this to `CONSIDER_PIT` (not
`PIT_NOW`) because promotion to `PIT_NOW` requires confidence strictly
greater than 0.7. -/
theorem overdue_recommends_consider_pit
    (driver_number current_lap total_laps current_position : ℤ)
    (deg_slope cliff_risk current_pace : ℚ) (tyre_age : ℤ) (compound : String)
    (pit_loss : ℚ) (gap_to_ahead gap_to_behind : Option ℚ) (ahead_deg behind_deg : ℚ)
    (safety_car : Bool)
    (h1 : ¬(safety_car = true ∧
      (find_optimal_window current_lap total_laps deg_slope current_pace pit_loss
        tyre_age compound cliff_risk).min_lap ≤ current_lap ∧
      current_lap ≤ (find_optimal_window current_lap total_laps deg_slope current_pace
        pit_loss tyre_age compound cliff_risk).max_lap))
    (h2 : cliff_risk ≤ 85 / 100)
    (h3 : ¬(truthyOpt gap_to_ahead = true ∧ gap_to_ahead.getD 0 < pit_loss + 3 ∧
      ahead_deg > deg_slope + 2 / 100))
    (h4 : current_lap ≠ (find_optimal_window current_lap total_laps deg_slope current_pace
        pit_loss tyre_age compound cliff_risk).ideal_lap)
    (h5 : (find_optimal_window current_lap total_laps deg_slope current_pace pit_loss
        tyre_age compound cliff_risk).max_lap < current_lap) :
    (evaluate_strategy driver_number current_lap total_laps current_position deg_slope
        cliff_risk current_pace tyre_age compound pit_loss gap_to_ahead gap_to_behind
        ahead_deg behind_deg safety_car).recommendation = RecommendationType.CONSIDER_PIT ∧
    (evaluate_strategy driver_number current_lap total_laps current_position deg_slope
        cliff_risk current_pace tyre_age compound pit_loss gap_to_ahead gap_to_behind
        ahead_deg behind_deg safety_car).confidence = 7 / 10 := by
  have hr0 := should_pit_now_overdue current_lap
    (find_optimal_window current_lap total_laps deg_slope current_pace pit_loss
      tyre_age compound cliff_risk) cliff_risk safety_car gap_to_behind pit_loss h1 h2 h4 h5
  constructor
  · simp only [evaluate_strategy, hr0]
    rw [if_neg h1]
    simp [lt_self_iff_false]
  · simp only [evaluate_strategy, hr0]
    rw [if_neg h1]
    simp [lt_self_iff_false]

/-- Claim C2 (counterexample): at lap 45 of 50 the computed window is the
degenerate `(0, 0, 0)` window, so `current_lap > window.max_lap` while no
earlier rule fires; the claim predicts `PIT_NOW` with confidence 0.7, but
`evaluate_strategy` returns `CONSIDER_PIT` with confidence 0.7. -/
theorem overdue_returns_consider_pit_at_input :
    (find_optimal_window 45 50 (5 / 100) 90 22 20 "SOFT" 0).max_lap < 45 ∧
    (45 : ℤ) ≠ (find_optimal_window 45 50 (5 / 100) 90 22 20 "SOFT" 0).ideal_lap ∧
    (0 : ℚ) ≤ 85 / 100 ∧
    (evaluate_strategy 1 45 50 1 (5 / 100) 0 90 20 "SOFT" 22 none none (5 / 100) (5 / 100)
        false).recommendation ≠ RecommendationType.PIT_NOW ∧
    (evaluate_strategy 1 45 50 1 (5 / 100) 0 90 20 "SOFT" 22 none none (5 / 100) (5 / 100)
        false).recommendation = RecommendationType.CONSIDER_PIT ∧
    (evaluate_strategy 1 45 50 1 (5 / 100) 0 90 20 "SOFT" 22 none none (5 / 100) (5 / 100)
        false).confidence = 7 / 10 := by
  norm_num [evaluate_strategy, find_optimal_window, should_pit_now, truthyOpt]
  decide

/-- Claim C2 (witness): the amended theorem applied at the same input. -/
theorem overdue_recommends_consider_pit_witness :
    (evaluate_strategy 1 45 50 1 (5 / 100) 0 90 20 "SOFT" 22 none none (5 / 100) (5 / 100)
        false).recommendation = RecommendationType.CONSIDER_PIT ∧
    (evaluate_strategy 1 45 50 1 (5 / 100) 0 90 20 "SOFT" 22 none none (5 / 100) (5 / 100)
        false).confidence = 7 / 10 :=
  overdue_recommends_consider_pit 1 45 50 1 (5 / 100) 0 90 20 "SOFT" 22 none none (5 / 100)
    (5 / 100) false (by simp) (by norm_num) (by simp [truthyOpt])
    (by norm_num [find_optimal_window]) (by norm_num [find_optimal_window])

/-! ## RLS estimator (`src/rsw/models/degradation/rls.py`)

Matrices over `ℚ` (exact arithmetic in place of `numpy` float64): `theta` is
the parameter vector, `P` the covariance matrix. -/

/-- Embedded `RLSEstimator` state. -/
structure RLSEstimator (n : ℕ) where
  theta : Fin n → ℚ
  P : Matrix (Fin n) (Fin n) ℚ
  lambda_ : ℚ
  reg : ℚ
  n_updates : ℕ
  residual_sum : ℚ
  last_residual : ℚ

/-- Embedded `RLSEstimator.__init__`. -/
def mkRLSEstimator (n : ℕ) (forgetting_factor : ℚ := 95 / 100)
    (initial_covariance : ℚ := 1000) (regularization : ℚ := 1 / 1000000) :
    RLSEstimator n :=
  { theta := fun _ => 0
    P := initial_covariance • (1 : Matrix (Fin n) (Fin n) ℚ)
    lambda_ := forgetting_factor
    reg := regularization
    n_updates := 0
    residual_sum := 0
    last_residual := 0 }

/-- Embedded `RLSEstimator.predict`: `θ · x`. -/
def RLSEstimator.predict {n : ℕ} (r : RLSEstimator n) (x : Fin n → ℚ) : ℚ :=
  Matrix.dotProduct r.theta x

/-- Embedded `RLSEstimator.update`: Kalman gain, parameter update, covariance
update `(P - K (xᵀP)) / λ`, symmetrization `(P + Pᵀ)/2`, regularization
`P + ε I`; returns the residual. -/
def RLSEstimator.update {n : ℕ} (r : RLSEstimator n) (x : Fin n → ℚ) (y : ℚ) :
    RLSEstimator n × ℚ :=
  let y_pred := r.predict x
  let error := y - y_pred
  let Px := r.P.mulVec x
  let denom := r.lambda_ + Matrix.dotProduct x Px
  let K : Fin n → ℚ := fun i => Px i / (denom + r.reg)
  let xP : Fin n → ℚ := Matrix.vecMul x r.P
  let P1 : Matrix (Fin n) (Fin n) ℚ := Matrix.of fun i j => (r.P i j - K i * xP j) / r.lambda_
  let P2 : Matrix (Fin n) (Fin n) ℚ := Matrix.of fun i j => (P1 i j + P1 j i) / 2
  let P3 := P2 + r.reg • (1 : Matrix (Fin n) (Fin n) ℚ)
  ({ r with
      theta := fun i => r.theta i + K i * error
      P := P3
      n_updates := r.n_updates + 1
      residual_sum := r.residual_sum + error ^ 2
      last_residual := error }, error)

/-- Embedded `RLSEstimator.warm_start`: seeds `θ` and resets
`P = uncertainty · I`. -/
def RLSEstimator.warm_start {n : ℕ} (r : RLSEstimator n) (base_pace deg_slope : ℚ)
    (uncertainty : ℚ := 10) : RLSEstimator n :=
  { r with
    theta := fun i =>
      if (i : ℕ) = 0 then base_pace
      else if (i : ℕ) = 1 ∧ 2 ≤ n then deg_slope
      else r.theta i
    P := uncertainty • (1 : Matrix (Fin n) (Fin n) ℚ) }

/-- Symmetric positive-semi-definiteness of a rational matrix. -/
def IsSymmPSD {n : ℕ} (M : Matrix (Fin n) (Fin n) ℚ) : Prop :=
  M.transpose = M ∧ ∀ v : Fin n → ℚ, 0 ≤ Matrix.dotProduct v (M.mulVec v)

theorem vecMul_eq_mulVec_of_symm {n : ℕ} (M : Matrix (Fin n) (Fin n) ℚ)
    (hsym : M.transpose = M) (x : Fin n → ℚ) : Matrix.vecMul x M = M.mulVec x := by
  have h : Matrix.vecMul x M.transpose = M.mulVec x := Matrix.vecMul_transpose M x
  rwa [hsym] at h

theorem dot_mulVec_symm {n : ℕ} (M : Matrix (Fin n) (Fin n) ℚ) (hsym : M.transpose = M)
    (x v : Fin n → ℚ) :
    Matrix.dotProduct x (M.mulVec v) = Matrix.dotProduct v (M.mulVec x) := by
  rw [Matrix.dotProduct_mulVec, vecMul_eq_mulVec_of_symm M hsym x, Matrix.dotProduct_comm]

theorem dot_self_nonneg {n : ℕ} (v : Fin n → ℚ) : 0 ≤ Matrix.dotProduct v v :=
  Finset.sum_nonneg fun i _ => mul_self_nonneg (v i)

theorem vecMulVec_mulVec_eq {n : ℕ} (w u v : Fin n → ℚ) :
    (Matrix.vecMulVec w u).mulVec v = Matrix.dotProduct u v • w := by
  funext i
  simp only [Matrix.mulVec, Matrix.dotProduct, Matrix.vecMulVec_apply, Pi.smul_apply,
    smul_eq_mul, Finset.sum_mul]
  exact Finset.sum_congr rfl fun j _ => by ring

/-- Cauchy–Schwarz for a symmetric positive-semi-definite quadratic form,
proved via the sign of the discriminant of `t ↦ (t·x+v)ᵀ M (t·x+v)`. -/
theorem psd_dotProduct_sq_le {n : ℕ} (M : Matrix (Fin n) (Fin n) ℚ)
    (hsym : M.transpose = M)
    (hpsd : ∀ v : Fin n → ℚ, 0 ≤ Matrix.dotProduct v (M.mulVec v)) (x v : Fin n → ℚ) :
    Matrix.dotProduct v (M.mulVec x) ^ 2 ≤
      Matrix.dotProduct v (M.mulVec v) * Matrix.dotProduct x (M.mulVec x) := by
  have key : ∀ t : ℚ, 0 ≤ Matrix.dotProduct x (M.mulVec x) * (t * t) +
      (2 * Matrix.dotProduct v (M.mulVec x)) * t + Matrix.dotProduct v (M.mulVec v) := by
    intro t
    have h := hpsd (t • x + v)
    have hexp : Matrix.dotProduct (t • x + v) (M.mulVec (t • x + v)) =
        Matrix.dotProduct x (M.mulVec x) * (t * t) +
          (2 * Matrix.dotProduct v (M.mulVec x)) * t +
          Matrix.dotProduct v (M.mulVec v) := by
      rw [Matrix.mulVec_add, Matrix.mulVec_smul, Matrix.add_dotProduct,
        Matrix.smul_dotProduct, Matrix.dotProduct_add, Matrix.dotProduct_add,
        Matrix.dotProduct_smul, Matrix.dotProduct_smul,
        dot_mulVec_symm M hsym x v]
      simp only [smul_eq_mul]
      ring
    rw [hexp] at h
    exact h
  have hd := discrim_le_zero key
  rw [discrim] at hd
  nlinarith [hd]

theorem update_P_eq {n : ℕ} (r : RLSEstimator n) (x : Fin n → ℚ) (y : ℚ)
    (hsym : r.P.transpose = r.P) :
    ((r.update x y).1).P =
      r.lambda_⁻¹ •
          (r.P - (r.lambda_ + Matrix.dotProduct x (r.P.mulVec x) + r.reg)⁻¹ •
            Matrix.vecMulVec (r.P.mulVec x) (r.P.mulVec x)) +
        r.reg • (1 : Matrix (Fin n) (Fin n) ℚ) := by
  have hxP : Matrix.vecMul x r.P = r.P.mulVec x := vecMul_eq_mulVec_of_symm r.P hsym x
  have hsym' : ∀ a b, r.P b a = r.P a b := fun a b => congrFun (congrFun hsym a) b
  simp only [RLSEstimator.update]
  ext i j
  simp only [Matrix.add_apply, Matrix.of_apply, Matrix.smul_apply, Matrix.sub_apply,
    Matrix.vecMulVec_apply, smul_eq_mul, congrFun hxP]
  rw [hsym' i j]
  ring

/-- Claim C7: after every `RLSEstimator.update` on a state whose covariance
`P` is symmetric positive-semi-definite (with `λ > 0` and `ε ≥ 0`), the new
covariance matrix is again symmetric positive-semi-definite. -/
theorem rls_update_preserves_symm_psd {n : ℕ} (r : RLSEstimator n) (x : Fin n → ℚ)
    (y : ℚ) (hlam : 0 < r.lambda_) (hreg : 0 ≤ r.reg) (hP : IsSymmPSD r.P) :
    IsSymmPSD ((r.update x y).1).P := by
  obtain ⟨hsym, hpsd⟩ := hP
  rw [update_P_eq r x y hsym]
  have hvv : (Matrix.vecMulVec (r.P.mulVec x) (r.P.mulVec x)).transpose =
      Matrix.vecMulVec (r.P.mulVec x) (r.P.mulVec x) := by
    ext i j
    simp only [Matrix.transpose_apply, Matrix.vecMulVec_apply]
    ring
  have hSnn : 0 ≤ Matrix.dotProduct x (r.P.mulVec x) := hpsd x
  have hdpos : 0 < r.lambda_ + Matrix.dotProduct x (r.P.mulVec x) + r.reg := by linarith
  constructor
  · rw [Matrix.transpose_add, Matrix.transpose_smul, Matrix.transpose_smul,
      Matrix.transpose_sub, Matrix.transpose_smul, Matrix.transpose_one, hsym, hvv]
  · intro v
    rw [Matrix.add_mulVec, Matrix.smul_mulVec_assoc, Matrix.smul_mulVec_assoc,
      Matrix.one_mulVec, Matrix.sub_mulVec, Matrix.smul_mulVec_assoc,
      vecMulVec_mulVec_eq, Matrix.dotProduct_add, Matrix.dotProduct_smul,
      Matrix.dotProduct_smul, Matrix.dotProduct_sub, Matrix.dotProduct_smul,
      Matrix.dotProduct_smul]
    simp only [smul_eq_mul]
    have hT : Matrix.dotProduct (r.P.mulVec x) v = Matrix.dotProduct v (r.P.mulVec x) :=
      Matrix.dotProduct_comm _ _
    rw [hT]
    have hCS := psd_dotProduct_sq_le r.P hsym hpsd x v
    have hQ : 0 ≤ Matrix.dotProduct v (r.P.mulVec v) := hpsd v
    have hvsq : 0 ≤ Matrix.dotProduct v v := dot_self_nonneg v
    have hkey : (r.lambda_ + Matrix.dotProduct x (r.P.mulVec x) + r.reg)⁻¹ *
        (Matrix.dotProduct v (r.P.mulVec x) * Matrix.dotProduct v (r.P.mulVec x)) ≤
        Matrix.dotProduct v (r.P.mulVec v) := by
      rw [← div_eq_inv_mul, div_le_iff₀ hdpos]
      nlinarith [hCS, hQ, hlam, hreg, hSnn]
    have hlaminv : 0 ≤ r.lambda_⁻¹ := inv_nonneg.mpr hlam.le
    nlinarith [hkey, hlaminv, mul_nonneg hreg hvsq, hQ]

/-- Claim C7 (witness): the theorem applied to a concrete estimator whose
covariance is the zero matrix (symmetric positive-semi-definite), with
`λ = 1` and `ε = 0`. -/
theorem rls_update_preserves_symm_psd_witness :
    IsSymmPSD ((RLSEstimator.update
      { theta := fun _ => 0, P := 0, lambda_ := 1, reg := 0, n_updates := 0,
        residual_sum := 0, last_residual := 0 : RLSEstimator 2 }
      (fun i => if (i : ℕ) = 0 then 1 else 2) 90).1).P :=
  rls_update_preserves_symm_psd _ _ 90 (by norm_num) (by norm_num)
    ⟨Matrix.transpose_zero, fun v => by simp [Matrix.mulVec_zero]⟩

/-! ## Degradation model (`src/rsw/models/degradation/calibration.py`,
`online_model.py`) -/

/-- Embedded `CompoundPrior`. -/
structure CompoundPrior where
  compound : String
  deg_per_lap : ℚ
  deg_std : ℚ
  cliff_lap : ℤ
  cliff_risk_threshold : ℚ
deriving DecidableEq

/-- Embedded `COMPOUND_PRIORS` lookup table. -/
def COMPOUND_PRIORS : List (String × CompoundPrior) :=
  [("SOFT", { compound := "SOFT", deg_per_lap := 8 / 100, deg_std := 3 / 100,
              cliff_lap := 20, cliff_risk_threshold := 12 / 100 }),
   ("MEDIUM", { compound := "MEDIUM", deg_per_lap := 5 / 100, deg_std := 2 / 100,
                cliff_lap := 35, cliff_risk_threshold := 10 / 100 }),
   ("HARD", { compound := "HARD", deg_per_lap := 3 / 100, deg_std := 15 / 1000,
              cliff_lap := 50, cliff_risk_threshold := 8 / 100 }),
   ("INTERMEDIATE", { compound := "INTERMEDIATE", deg_per_lap := 10 / 100,
                      deg_std := 5 / 100, cliff_lap := 25, cliff_risk_threshold := 15 / 100 }),
   ("WET", { compound := "WET", deg_per_lap := 12 / 100, deg_std := 6 / 100,
             cliff_lap := 20, cliff_risk_threshold := 18 / 100 })]

/-- The `COMPOUND_PRIORS["MEDIUM"]` fallback. -/
def mediumPrior : CompoundPrior :=
  { compound := "MEDIUM", deg_per_lap := 5 / 100, deg_std := 2 / 100,
    cliff_lap := 35, cliff_risk_threshold := 10 / 100 }

/-- Embedded `get_warm_start_params`. -/
def get_warm_start_params (compound : String) (base_pace : Option ℚ)
    (track_multiplier : ℚ := 1) : ℚ × ℚ :=
  let prior := (dictGet COMPOUND_PRIORS (pyUpper compound)).getD mediumPrior
  (base_pace.getD 90, prior.deg_per_lap * track_multiplier)

/-- Embedded `create_feature_vector`: `[1, lap_in_stint]`. -/
def create_feature_vector (lap_in_stint : ℤ) : Fin 2 → ℚ :=
  ![1, (lap_in_stint : ℚ)]

/-- Embedded `StintModel`. -/
structure StintModel where
  stint_number : ℤ
  compound : String
  start_lap : ℤ
  rls : RLSEstimator 2
  lap_times : List ℚ := []
  is_active : Bool := true

/-- Embedded `DriverDegradationModel` state. -/
structure DriverDegradationModel where
  driver_number : ℤ
  forgetting_factor : ℚ := 95 / 100
  min_observations : ℕ := 3
  current_stint : Option StintModel := none
  stint_history : List StintModel := []
  estimated_base_pace : Option ℚ := none

/-- Embedded `DriverDegradationModel.new_stint`: archives the current stint
and creates a fresh warm-started estimator (Python `base_pace or
self.estimated_base_pace` is float truthiness: `pyOr`). -/
def DriverDegradationModel.new_stint (m : DriverDegradationModel) (stint_number : ℤ)
    (compound : String) (start_lap : ℤ) (base_pace : Option ℚ := none) :
    DriverDegradationModel :=
  let stint_history :=
    match m.current_stint with
    | some st => m.stint_history ++ [{ st with is_active := false }]
    | none => m.stint_history
  let rls := mkRLSEstimator 2 m.forgetting_factor
  let bp := pyOr base_pace m.estimated_base_pace
  let warm := get_warm_start_params compound bp
  let rls := rls.warm_start warm.1 warm.2 50
  { m with
    stint_history := stint_history
    current_stint := some
      { stint_number := stint_number
        compound := compound
        start_lap := start_lap
        rls := rls } }

/-- Embedded `DriverDegradationModel.update`: always records the lap time in
the stint history, feeds the RLS only for valid positive lap times, and
maintains the exponential-moving-average base-pace estimate. -/
def DriverDegradationModel.update (m : DriverDegradationModel) (lap_in_stint : ℤ)
    (lap_time : ℚ) (is_valid : Bool := true) : DriverDegradationModel × ℚ :=
  let m1 := if m.current_stint.isNone then m.new_stint 1 "MEDIUM" 1 none else m
  match m1.current_stint with
  | none => (m1, 0)
  | some st =>
    let st1 := { st with lap_times := st.lap_times ++ [lap_time] }
    let m2 := { m1 with current_stint := some st1 }
    if ¬ is_valid ∨ lap_time ≤ 0 then (m2, 0)
    else
      let x := create_feature_vector lap_in_stint
      let res := st1.rls.update x lap_time
      let m3 := { m2 with current_stint := some { st1 with rls := res.1 } }
      let ebp :=
        match m3.estimated_base_pace with
        | none => lap_time
        | some b => (9 / 10) * b + (1 / 10) * lap_time
      ({ m3 with estimated_base_pace := some ebp }, res.2)

/-- Claim C9: with an existing current stint, `update(_, lap_time,
is_valid=False)` appends `lap_time` to the stint's lap-time history, leaves
the RLS estimator (and every other model field) unchanged, and returns 0. -/
theorem invalid_lap_updates_history_only (m : DriverDegradationModel) (st : StintModel)
    (lap_in_stint : ℤ) (lap_time : ℚ) (hst : m.current_stint = some st) :
    m.update lap_in_stint lap_time false =
      ({ m with current_stint := some { st with lap_times := st.lap_times ++ [lap_time] } },
        0) := by
  unfold DriverDegradationModel.update
  simp [hst]

/-- Concrete stint for the C9 witness. -/
def c9Stint : StintModel :=
  { stint_number := 1
    compound := "MEDIUM"
    start_lap := 1
    rls := mkRLSEstimator 2
    lap_times := [90] }

/-- Concrete model for the C9 witness. -/
def c9Model : DriverDegradationModel :=
  { driver_number := 1, current_stint := some c9Stint }

/-- Claim C9 (witness): the theorem applied at a concrete model state. -/
theorem invalid_lap_updates_history_only_witness :
    c9Model.update 3 85 false =
      ({ c9Model with
          current_stint := some { c9Stint with lap_times := c9Stint.lap_times ++ [85] } },
        0) :=
  invalid_lap_updates_history_only c9Model c9Stint 3 85 rfl

/-! ## Monte Carlo simulator (`src/rsw/strategy/monte_carlo.py`)

The Python `random` module's global generator is modelled as explicit state
of type `PyRng`, threaded through every draw.  The Mersenne Twister is
abstracted to a deterministic 64-bit linear congruential generator and
`random.gauss` to a deterministic transform of one uniform draw: only the
facts that every draw is a pure function of the generator state and that
`random.seed` resets the state to a function of the seed alone matter for
the properties proved here.  `np.random.seed` is also called by the source
worker, but `simulate_single_race` draws exclusively from `random`. -/

/-- Explicit state of the global `random` generator. -/
structure PyRng where
  state : ℕ
deriving DecidableEq

/-- Model of `random.seed(seed)`: the generator state becomes a function of
the seed alone. -/
def randomSeed (seed : ℕ) : PyRng :=
  { state := seed % 2 ^ 64 }

/-- One raw 64-bit draw (LCG step). -/
def PyRng.next (g : PyRng) : ℕ × PyRng :=
  let s := (6364136223846793005 * g.state + 1442695040888963407) % 2 ^ 64
  (s, { state := s })

/-- Model of `random.random()`: a rational in `[0, 1)`. -/
def PyRng.randomFloat (g : PyRng) : ℚ × PyRng :=
  let r := g.next
  ((r.1 : ℚ) / 2 ^ 64, r.2)

/-- Model of `random.gauss(mu, sigma)`: a deterministic transform of one
uniform draw (the exact distribution is irrelevant to the claims). -/
def PyRng.gauss (g : PyRng) (mu sigma : ℚ) : ℚ × PyRng :=
  let r := g.randomFloat
  (mu + sigma * (2 * r.1 - 1), r.2)

/-- Model of `random.randint(a, b)` (inclusive bounds). -/
def PyRng.randint (g : PyRng) (a b : ℤ) : ℤ × PyRng :=
  let r := g.next
  (a + (r.1 : ℤ) % (b - a + 1), r.2)

/-- Helper for weighted choice: the first index whose cumulative weight
exceeds the uniform draw. -/
def pickWeightedAux (u : ℚ) : List ℚ → ℚ → ℕ → ℕ
  | [], _, i => i
  | w :: rest, acc, i => if u < acc + w then i else pickWeightedAux u rest (acc + w) (i + 1)

/-- Model of `random.choices(range(len(weights)), weights=weights)[0]`. -/
def PyRng.choicesWeighted (g : PyRng) (weights : List ℚ) : ℕ × PyRng :=
  let r := g.randomFloat
  (pickWeightedAux r.1 weights 0 0, r.2)

/-- Embedded `RaceScenario`. -/
structure RaceScenario where
  has_safety_car : Bool := false
  safety_car_lap : ℤ := 0
  has_vsc : Bool := false
  vsc_lap : ℤ := 0
deriving DecidableEq

/-- Embedded `sample_safety_car`. -/
def sample_safety_car (remaining_laps : ℤ) (base_probability : ℚ) (g : PyRng) :
    (Bool × ℤ) × PyRng :=
  let r := g.randomFloat
  if r.1 > base_probability then ((false, 0), r.2)
  else
    let weights := (List.range remaining_laps.toNat).map
      (fun i => (3 / 2 : ℚ) - (i : ℚ) / (remaining_laps : ℚ))
    let total := weights.foldl (· + ·) 0
    let normalized := weights.map (· / total)
    let c := r.2.choicesWeighted normalized
    ((true, (c.1 : ℤ)), c.2)

/-- Embedded `sample_scenario`: SC and VSC sampled independently, VSC
suppressed when an SC occurred. -/
def sample_scenario (remaining_laps : ℤ) (sc_probability : ℚ)
    (vsc_probability : ℚ) (g : PyRng) : RaceScenario × PyRng :=
  let sc := sample_safety_car remaining_laps sc_probability g
  let vsc := sample_safety_car remaining_laps vsc_probability sc.2
  ({ has_safety_car := sc.1.1
     safety_car_lap := sc.1.2
     has_vsc := vsc.1.1 && !sc.1.1
     vsc_lap := if !sc.1.1 then vsc.1.2 else 0 }, vsc.2)

/-- One iteration of the per-car lap loop in `simulate_single_race`; the
accumulator carries `(total_time, deg, rng)`.  Python truthiness guards the
pit lap (`if pit_lap and lap == pit_lap`), so lap 0 never pits. -/
def simLapStep (pace pit_loss : ℚ) (pit_lap : Option ℤ) (scenario : RaceScenario)
    (acc : ℚ × ℚ × PyRng) (lap : ℕ) : ℚ × ℚ × PyRng :=
  let lap_time := pace + acc.2.1 * (lap : ℚ)
  let pitHere := truthyOptInt pit_lap && decide ((lap : ℤ) = pit_lap.getD 0)
  let time1 := if pitHere then acc.1 + pit_loss else acc.1
  let deg1 := if pitHere then acc.2.1 * (1 / 2) else acc.2.1
  let scHere := scenario.has_safety_car && decide ((lap : ℤ) = scenario.safety_car_lap)
  let lap_time2 := if scHere then pace else lap_time
  let time2 := if scHere && pitHere then time1 - pit_loss * (6 / 10) else time1
  let noise := acc.2.2.gauss 0 (2 / 10)
  (time2 + lap_time2 + noise.1, deg1, noise.2)

/-- The competitor loop body of `simulate_single_race`: sample the
competitor's pit lap (only when more than 15 laps remain), then accumulate
its race time; the index is the enumeration position. -/
def simCompetitorStep (remaining_laps : ℤ) (pit_loss : ℚ) (scenario : RaceScenario)
    (acc : List (ℕ × ℚ) × PyRng) (pd : ℚ × ℚ) : List (ℕ × ℚ) × PyRng :=
  let i := acc.1.length
  let drawn : Option ℤ × PyRng :=
    if remaining_laps > 15 then
      let r := acc.2.randint (Int.fdiv remaining_laps 3) (Int.fdiv (remaining_laps * 2) 3)
      (some r.1, r.2)
    else (none, acc.2)
  let run := (List.range remaining_laps.toNat).foldl
    (simLapStep pd.1 pit_loss drawn.1 scenario) (0, pd.2, drawn.2)
  (acc.1 ++ [(i, run.1)], run.2.2)

/-- Embedded `simulate_single_race`: sample a scenario, accumulate the
subject's and each competitor's total times, sort all cars by total time
(stably, as Python's sort does) and return the subject's 1-based rank. -/
def simulate_single_race (driver_pace driver_deg : ℚ) (competitors : List (ℚ × ℚ))
    (remaining_laps : ℤ) (current_position : ℤ) (pit_lap : Option ℤ) (pit_loss : ℚ)
    (sc_probability : ℚ) (g : PyRng) : ℤ × PyRng :=
  let sc := sample_scenario remaining_laps sc_probability (2 / 10) g
  let ours := (List.range remaining_laps.toNat).foldl
    (simLapStep driver_pace pit_loss pit_lap sc.1) (0, driver_deg, sc.2)
  let comp := competitors.foldl (simCompetitorStep remaining_laps pit_loss sc.1) ([], ours.2.2)
  let all_times : List (Option ℕ × ℚ) :=
    (none, ours.1) :: comp.1.map (fun p => (some p.1, p.2))
  let sorted := all_times.insertionSort fun a b => a.2 ≤ b.2
  match sorted.findIdx? (fun p => p.1.isNone) with
  | some idx => ((idx : ℤ) + 1, comp.2)
  | none => (current_position, comp.2)

/-- Arguments of the `_run_single_sim` worker (its Python argument tuple). -/
structure SimArgs where
  driver_pace : ℚ
  driver_deg : ℚ
  competitors : List (ℚ × ℚ)
  remaining_laps : ℤ
  current_position : ℤ
  pit_lap : Option ℤ
  pit_loss : ℚ
  sc_probability : ℚ
  seed : ℕ

/-- Embedded `_run_single_sim`: reseeds the global generator from the
per-trial seed, then simulates; the pre-call generator state is discarded by
the reseed. -/
def runSingleSim (args : SimArgs) (g : PyRng) : ℤ × PyRng :=
  let g := randomSeed args.seed
  simulate_single_race args.driver_pace args.driver_deg args.competitors
    args.remaining_laps args.current_position args.pit_lap args.pit_loss
    args.sc_probability g

/-- Claim C10: `_run_single_sim` is deterministic in its argument tuple —
two calls with identical arguments return the same finishing position (and
leave the global generator in the same state), whatever the generator state
was before each call, because the worker reseeds the generator from the
per-trial seed before simulating. -/
theorem run_single_sim_deterministic (args : SimArgs) (g1 g2 : PyRng) :
    runSingleSim args g1 = runSingleSim args g2 := rfl

end Apex
